import Mathlib

/-!
Shallow embedding of two SDK operations of the dvelop-sdk-node repository:

* `getDmsObject` together with its default response transform
  `transformGetDmsObjectResponse` (source file `src/unnamed/part_000`), and
* `completeTask` together with the error class `TaskAlreadyCompletedError`
  (source file `src/unnamed/part_001`).

JavaScript dynamic values are modelled by the inductive `JsValue`; the HTTP
layer (axios) is modelled as an explicit function from the single request an
operation issues to an outcome, which is either a response or a thrown error.
Each operation returns, next to its result, the list of HTTP requests it
issued, so that "no network call is made" is expressible.
-/

/-- A JavaScript runtime value, as far as the embedded code inspects one:
`undefined`, `null`, booleans, numbers (NaN is never produced by the embedded
code and is not modelled), strings, arrays and plain objects (ordered field
lists; a lookup takes the first binding of a name). -/
inductive JsValue where
  | undefined : JsValue
  | null : JsValue
  | bool : Bool → JsValue
  | num : Int → JsValue
  | str : String → JsValue
  | arr : List JsValue → JsValue
  | obj : List (String × JsValue) → JsValue

/-- JavaScript truthiness of a value (`if (v)`, `v && w`): `undefined`,
`null`, `false`, `0` and `""` are falsy, everything else (including every
object and array) is truthy. -/
def JsValue.truthy : JsValue → Bool
  | .undefined => false
  | .null => false
  | .bool b => b
  | .num n => n != 0
  | .str s => s != ""
  | .arr _ => true
  | .obj _ => true

/-- `typeof v === "string"`. -/
def JsValue.isString : JsValue → Bool
  | .str _ => true
  | _ => false

/-- First binding of a field name in an object field list; `undefined` when
the name is absent. -/
def lookupField : List (String × JsValue) → String → JsValue
  | [], _ => .undefined
  | (k, v) :: rest, name => if k == name then v else lookupField rest name

/-- Property read on a value that is known not to be nullish: an object
yields the named field (or `undefined` when absent); on primitives and
arrays the embedded code only ever reads names that are not built-in
properties, so the read yields `undefined`. -/
def JsValue.lookup : JsValue → String → JsValue
  | .obj fields, name => lookupField fields name
  | _, _ => .undefined

/-- String coercion of a value as performed by a template literal
(`` `${v}` ``). Array elements are coerced recursively, with `null` and
`undefined` elements becoming the empty string. -/
def JsValue.toStr : JsValue → String
  | .undefined => "undefined"
  | .null => "null"
  | .bool true => "true"
  | .bool false => "false"
  | .num n => toString n
  | .str s => s
  | .arr es => String.intercalate "," (es.attach.map fun e =>
      match e with
      | ⟨.null, _⟩ => ""
      | ⟨.undefined, _⟩ => ""
      | ⟨v, _⟩ => v.toStr)
  | .obj _ => "[object Object]"

/-- An axios response as far as the embedded code reads it: the HTTP status,
the parsed body (`data`) and the echoed request configuration (`config`). -/
structure AxiosResponse where
  status : Nat
  data : JsValue
  config : JsValue

/-- A thrown JavaScript error as far as the embedded code inspects one: its
`message`, whether `axios.isAxiosError` recognises it, and its `response`
field (absent for errors without a response, e.g. network failures or
TypeErrors). Rethrowing with a changed message is modelled as a record
update of `message` alone, leaving every other part of the error intact. -/
structure JsError where
  message : String
  isAxiosError : Bool
  response : Option AxiosResponse

/-- The error a property read on `undefined` or `null` throws. -/
def typeErrorReading (name : String) : JsError :=
  { message := "Cannot read properties of undefined or null (reading " ++ name ++ ")",
    isAxiosError := false,
    response := none }

/-- Property read with JavaScript semantics: reading a property of
`undefined` or `null` throws a TypeError; otherwise the read yields
`JsValue.lookup`. -/
def JsValue.getProp : JsValue → String → Except JsError JsValue
  | .undefined, name => .error (typeErrorReading name)
  | .null, name => .error (typeErrorReading name)
  | v, name => .ok (v.lookup name)

/-- The single HTTP request an operation hands to axios: method, url,
and the request configuration fields the embedded code sets (`baseURL`,
`headers`, the request body, and the hypermedia options `follows` and
`templates`; `params` is never set by this code and is carried to make that
visible). -/
structure HttpRequest where
  method : String
  url : String
  baseURL : String
  headers : List (String × String)
  body : Option JsValue
  follows : Option (List String)
  templates : Option (List (String × String))
  params : Option (List (String × String))

/-- Outcome of handing a request to axios: a response, or a thrown error. -/
inductive HttpOutcome where
  | ok : AxiosResponse → HttpOutcome
  | err : JsError → HttpOutcome

/-- `e.message = context + ": " + e.message` before rethrowing `e`:
only the message changes, every other part of the error is kept. -/
def contextMessage (context : String) (e : JsError) : JsError :=
  { e with message := context ++ ": " ++ e.message }

/-! ## getDmsObject (source file `src/unnamed/part_000`) -/

/-- `TenantContext` containing systemBaseUri and a valid authSessionId. -/
structure TenantContext where
  systemBaseUri : String
  authSessionId : String

/-- `GetDmsObjectParams` containing repositoryId, sourceId and dmsObjectId. -/
structure GetDmsObjectParams where
  repositoryId : String
  sourceId : String
  dmsObjectId : String

/-- The `DmsObject` record built by the default transform. The TypeScript
interface declares string/array types, but the transform assigns whatever
the dynamic response holds, so the fields are modelled as `JsValue`. -/
structure DmsObject where
  repositoryId : JsValue
  sourceId : JsValue
  id : JsValue
  categories : JsValue
  properties : JsValue

/-- `transformGetDmsObjectResponse`: builds the `DmsObject` from
`response.config.params` (repositoryid, sourceid) and `response.data`
(id, sourceCategories, sourceProperties), in the field order of the object
literal; any property read on a nullish base throws. The source reads
`response.config.params` once per field; on plain data both reads agree, so
it is read once here. -/
def transformGetDmsObjectResponse (response : AxiosResponse) : Except JsError DmsObject :=
  match response.config.getProp "params" with
  | .error e => .error e
  | .ok ps =>
    match ps.getProp "repositoryid" with
    | .error e => .error e
    | .ok rid =>
      match ps.getProp "sourceid" with
      | .error e => .error e
      | .ok sid =>
        match response.data.getProp "id" with
        | .error e => .error e
        | .ok oid =>
          match response.data.getProp "sourceCategories" with
          | .error e => .error e
          | .ok cats =>
            match response.data.getProp "sourceProperties" with
            | .error e => .error e
            | .ok props =>
              .ok { repositoryId := rid, sourceId := sid, id := oid,
                    categories := cats, properties := props }

/-- Typed outcome of `getDmsObject`: the three typed errors its catch block
throws, or the original error rethrown with a context-prefixed message. -/
inductive GetDmsObjectError where
  | badRequestError : String → JsError → GetDmsObjectError
  | unauthorizedError : String → JsError → GetDmsObjectError
  | notFoundError : String → JsError → GetDmsObjectError
  | rethrown : JsError → GetDmsObjectError

/-- The one GET request `getDmsObject` issues: `GET /dms` against the
tenant base URI with a bearer Authorization header and an
`application/hal+json` Accept header; the target resource is addressed via
the hypermedia options `follows` and `templates` (never via `params`). -/
def getDmsObjectRequest (context : TenantContext) (params : GetDmsObjectParams) : HttpRequest :=
  { method := "GET",
    url := "/dms",
    baseURL := context.systemBaseUri,
    headers := [("Authorization", "Bearer " ++ context.authSessionId),
                ("Accept", "application/hal+json")],
    body := none,
    follows := some ["repo", "dmsobjectwithmapping"],
    templates := some [("repositoryid", params.repositoryId),
                       ("dmsobjectid", params.dmsObjectId),
                       ("sourceid", params.sourceId)],
    params := none }

/-- The catch block of `getDmsObject`: when `axios.isAxiosError(e)` holds,
statuses 400, 401 and 404 of `e.response?.status` become the typed errors;
every other error (no axios error, no response, or any other status) is
rethrown with its message prefixed by the operation context. -/
def handleGetDmsObjectError (e : JsError) : GetDmsObjectError :=
  let errorContext := "Failed to get dmsObject"
  if e.isAxiosError then
    match e.response with
    | some r =>
      if r.status == 400 then .badRequestError errorContext e
      else if r.status == 401 then .unauthorizedError errorContext e
      else if r.status == 404 then .notFoundError errorContext e
      else .rethrown (contextMessage errorContext e)
    | none => .rethrown (contextMessage errorContext e)
  else .rethrown (contextMessage errorContext e)

/-- `getDmsObject` with an explicit transform argument: issue the one GET
request; on a response, return `transform(response)` (a transform that
throws is caught by the same catch block, since the `return` sits inside
the `try`); on a thrown error, dispatch through the catch block. The second
component lists the HTTP requests issued. -/
def getDmsObject {α : Type} (context : TenantContext) (params : GetDmsObjectParams)
    (transform : AxiosResponse → Except JsError α)
    (http : HttpRequest → HttpOutcome) :
    Except GetDmsObjectError α × List HttpRequest :=
  let req := getDmsObjectRequest context params
  match http req with
  | .ok response =>
    match transform response with
    | .ok value => (.ok value, [req])
    | .error e => (.error (handleGetDmsObjectError e), [req])
  | .err e => (.error (handleGetDmsObjectError e), [req])

/-- `getDmsObject` as called without a transform argument: the default
parameter value is `transformGetDmsObjectResponse`. -/
def getDmsObjectDefault (context : TenantContext) (params : GetDmsObjectParams)
    (http : HttpRequest → HttpOutcome) :
    Except GetDmsObjectError DmsObject × List HttpRequest :=
  getDmsObject context params transformGetDmsObjectResponse http

/-! ## completeTask (source file `src/unnamed/part_001`) -/

/-- The error class `TaskAlreadyCompletedError`: carries a `location` field
and a `response` field, and its message is built by the constructor from
the context and the location. -/
structure TaskAlreadyCompletedError where
  message : String
  location : String
  response : AxiosResponse

/-- The constructor of `TaskAlreadyCompletedError`:
`super(context + ": Task was already completed at location: " + location)`
with the `location` and `response` parameter properties. -/
def TaskAlreadyCompletedError.make (context location : String)
    (response : AxiosResponse) : TaskAlreadyCompletedError :=
  { message := context ++ ": Task was already completed at location: " ++ location,
    location := location,
    response := response }

/-- Typed outcome of `completeTask`: success resolves with no value; the
five typed errors carry exactly the arguments the source passes to their
constructors; everything else is the original error rethrown with a
context-prefixed message. -/
inductive CompleteTaskResult where
  | success : CompleteTaskResult
  | noTaskLocationError : String → JsValue → CompleteTaskResult
  | unauthenticatedError : String → AxiosResponse → CompleteTaskResult
  | unauthorizedError : String → AxiosResponse → CompleteTaskResult
  | taskNotFoundError : String → String → AxiosResponse → CompleteTaskResult
  | taskAlreadyCompletedError : TaskAlreadyCompletedError → CompleteTaskResult
  | rethrown : JsError → CompleteTaskResult

/-- The one POST request `completeTask` issues for a resolved location:
`POST <location>/completionState` with body `{complete: true}` against the
system base URI, with a bearer Authorization header and an Origin header. -/
def completeTaskRequest (systemBaseUri authSessionId location : String) : HttpRequest :=
  { method := "POST",
    url := location ++ "/completionState",
    baseURL := systemBaseUri,
    headers := [("Authorization", "Bearer " ++ authSessionId),
                ("Origin", systemBaseUri)],
    body := some (.obj [("complete", .bool true)]),
    follows := none,
    templates := none,
    params := none }

/-- The catch block of `completeTask`: when `e.response` is present,
statuses 401, 403, 404 and 410 become the typed errors (404 and 410 carry
the resolved location); every other error is rethrown with its message
prefixed by the operation context. -/
def handleCompleteTaskError (context location : String) (e : JsError) : CompleteTaskResult :=
  match e.response with
  | some r =>
    if r.status == 401 then .unauthenticatedError context r
    else if r.status == 403 then .unauthorizedError context r
    else if r.status == 404 then .taskNotFoundError context location r
    else if r.status == 410 then
      .taskAlreadyCompletedError (TaskAlreadyCompletedError.make context location r)
    else .rethrown (contextMessage context e)
  | none => .rethrown (contextMessage context e)

/-- The try block of `completeTask` for an already resolved location. -/
def completeTaskAt (context systemBaseUri authSessionId location : String)
    (http : HttpRequest → HttpOutcome) : CompleteTaskResult × List HttpRequest :=
  let req := completeTaskRequest systemBaseUri authSessionId location
  match http req with
  | .ok _ => (.success, [req])
  | .err e => (handleCompleteTaskError context location e, [req])

/-- `completeTask`: resolve the location from the task argument — a truthy
string is the location itself, otherwise a truthy task with a truthy
`location` field yields that field (`task && (task as Task).location`
never reads a property of a nullish base, because `task` is truthy there);
with no location, throw `NoTaskLocationError` before any HTTP request.
Otherwise run the try/catch with the resolved location. -/
def completeTask (systemBaseUri authSessionId : String) (task : JsValue)
    (http : HttpRequest → HttpOutcome) : CompleteTaskResult × List HttpRequest :=
  let context := "Failed to complete task"
  if task.truthy && task.isString then
    completeTaskAt context systemBaseUri authSessionId task.toStr http
  else if task.truthy && (task.lookup "location").truthy then
    completeTaskAt context systemBaseUri authSessionId (task.lookup "location").toStr http
  else
    (.noTaskLocationError context task, [])

/-- The location `completeTask` resolves from its task argument, when one
resolves at all: the two branch guards of the source, in order. -/
def resolvedLocation (task : JsValue) : Option String :=
  if task.truthy && task.isString then some task.toStr
  else if task.truthy && (task.lookup "location").truthy then
    some (task.lookup "location").toStr
  else none

/-- A caller-supplied transform that does not throw, as an `Except`-valued
transform: `getDmsObject` receives `fun response => .ok (t response)`. -/
def liftTransform {α : Type} (t : AxiosResponse → α) :
    AxiosResponse → Except JsError α :=
  fun response => .ok (t response)

/-- The guard under which the catch block of `getDmsObject` produces a typed
error instead of the context-prefixed rethrow: `axios.isAxiosError(e)` and
`e.response?.status` is 400, 401 or 404. -/
def handledByGetDmsObject (e : JsError) : Bool :=
  e.isAxiosError &&
    match e.response with
    | some r => r.status == 400 || r.status == 401 || r.status == 404
    | none => false

/-- The guard under which the catch block of `completeTask` produces a typed
error instead of the context-prefixed rethrow: `e.response` is present and
its status is 401, 403, 404 or 410 (no axios-error check here). -/
def handledByCompleteTask (e : JsError) : Bool :=
  match e.response with
  | some r => r.status == 401 || r.status == 403 || r.status == 404 || r.status == 410
  | none => false

/-! ## Concrete fixtures for witnesses -/

/-- A concrete tenant context. -/
def tenantContextW : TenantContext :=
  { systemBaseUri := "https://umbrella-corp.d-velop.cloud",
    authSessionId := "AUTH_SESSION_ID" }

/-- Concrete `getDmsObject` parameters. -/
def getDmsObjectParamsW : GetDmsObjectParams :=
  { repositoryId := "repo1", sourceId := "source1", dmsObjectId := "object1" }

/-- A well-formed successful response: the echoed config carries `params`
with `repositoryid` and `sourceid`, and the body carries `id`,
`sourceCategories` and `sourceProperties`. -/
def responseW : AxiosResponse :=
  { status := 200,
    data := .obj [("id", .str "object1"),
                  ("sourceCategories", .arr [.str "category1"]),
                  ("sourceProperties",
                    .arr [.obj [("key", .str "k1"), ("value", .str "v1")]])],
    config := .obj [("params", .obj [("repositoryid", .str "repo1"),
                                     ("sourceid", .str "source1")])] }

/-- The `DmsObject` the default transform builds from `responseW`. -/
def dmsObjectW : DmsObject :=
  { repositoryId := .str "repo1", sourceId := .str "source1",
    id := .str "object1", categories := .arr [.str "category1"],
    properties := .arr [.obj [("key", .str "k1"), ("value", .str "v1")]] }

/-- A successful response whose echoed config has a `params` object without
`repositoryid` and `sourceid` entries. -/
def responseNoParamsW : AxiosResponse :=
  { status := 200,
    data := .obj [("id", .str "object1"),
                  ("sourceCategories", .arr [.str "category1"]),
                  ("sourceProperties", .arr [])],
    config := .obj [("params", .obj [])] }

/-- The `DmsObject` the default transform builds from `responseNoParamsW`:
the ids are `undefined`, not taken from the body or anywhere else. -/
def dmsObjectNoParamsW : DmsObject :=
  { repositoryId := .undefined, sourceId := .undefined,
    id := .str "object1", categories := .arr [.str "category1"],
    properties := .arr [] }

/-- A concrete caller-supplied transform: project the HTTP status. -/
def statusTransformW : AxiosResponse → Nat := fun response => response.status

/-- A response with a given status and no interesting body or config. -/
def respOf (status : Nat) : AxiosResponse :=
  { status := status, data := .undefined, config := .undefined }

/-- An error carrying a response with the given status. -/
def errOf (ax : Bool) (status : Nat) : JsError :=
  { message := "failure", isAxiosError := ax, response := some (respOf status) }

/-- An error carrying no response at all. -/
def errNoResp (ax : Bool) : JsError :=
  { message := "failure", isAxiosError := ax, response := none }

/-- An HTTP layer that throws the given error on every request. -/
def httpErr (e : JsError) : HttpRequest → HttpOutcome := fun _ => .err e

/-- An HTTP layer that returns the given response on every request. -/
def httpOk (r : AxiosResponse) : HttpRequest → HttpOutcome := fun _ => .ok r

/-! ## Helper lemmas -/

theorem getProp_ok (v : JsValue) (n : String) (w : JsValue)
    (h : v.getProp n = .ok w) : w = v.lookup n := by
  cases v <;> simp_all [JsValue.getProp, JsValue.lookup]

theorem toStr_str (s : String) : (JsValue.str s).toStr = s := by
  simp [JsValue.toStr]

theorem resolvedLocation_str (s : String) (h : s ≠ "") :
    resolvedLocation (.str s) = some s := by
  simp [resolvedLocation, JsValue.truthy, JsValue.isString, JsValue.toStr, h]

theorem completeTask_eq (sb sid : String) (task : JsValue)
    (http : HttpRequest → HttpOutcome) :
    completeTask sb sid task http =
      match resolvedLocation task with
      | some l => completeTaskAt "Failed to complete task" sb sid l http
      | none => (.noTaskLocationError "Failed to complete task" task, []) := by
  unfold completeTask resolvedLocation
  by_cases h1 : (task.truthy && task.isString) = true
  · simp [h1]
  · by_cases h2 : (task.truthy && (task.lookup "location").truthy) = true <;>
      simp [h1, h2]

/-! ## Claims -/

/-- Claim C1: for every call of `completeTask` whose task argument resolves
to a non-empty location, an HTTP failure whose response carries status 401
throws `UnauthenticatedError`, 403 throws `UnauthorizedError`, 404 throws
`TaskNotFoundError`, and 410 throws `TaskAlreadyCompletedError` whose
`location` field equals the resolved location. -/
theorem completeTask_error_status_mapping
    (sb sid : String) (task : JsValue) (http : HttpRequest → HttpOutcome)
    (l : String) (e : JsError) (r : AxiosResponse)
    (hloc : resolvedLocation task = some l) (_hne : l ≠ "")
    (hhttp : http (completeTaskRequest sb sid l) = .err e)
    (hresp : e.response = some r) :
    (r.status = 401 → (completeTask sb sid task http).1 =
      .unauthenticatedError "Failed to complete task" r) ∧
    (r.status = 403 → (completeTask sb sid task http).1 =
      .unauthorizedError "Failed to complete task" r) ∧
    (r.status = 404 → (completeTask sb sid task http).1 =
      .taskNotFoundError "Failed to complete task" l r) ∧
    (r.status = 410 → (completeTask sb sid task http).1 =
      .taskAlreadyCompletedError (TaskAlreadyCompletedError.make "Failed to complete task" l r) ∧
      (TaskAlreadyCompletedError.make "Failed to complete task" l r).location = l) := by
  have hct := completeTask_eq sb sid task http
  rw [hloc] at hct
  refine ⟨?_, ?_, ?_, ?_⟩ <;> intro hst <;>
    simp [hct, completeTaskAt, hhttp, handleCompleteTaskError, hresp, hst,
      TaskAlreadyCompletedError.make]

/-- Witness for C1 at the spec example location, one instantiation per
status code. -/
theorem completeTask_error_status_mapping_witness :
    (resolvedLocation (.str "/some/task/location") = some "/some/task/location" ∧
      "/some/task/location" ≠ "" ∧
      (completeTask "https://umbrella-corp.d-velop.cloud" "AUTH_SESSION_ID"
        (.str "/some/task/location") (httpErr (errOf true 401))).1 =
        .unauthenticatedError "Failed to complete task" (respOf 401)) ∧
    ((completeTask "https://umbrella-corp.d-velop.cloud" "AUTH_SESSION_ID"
        (.str "/some/task/location") (httpErr (errOf true 403))).1 =
        .unauthorizedError "Failed to complete task" (respOf 403)) ∧
    ((completeTask "https://umbrella-corp.d-velop.cloud" "AUTH_SESSION_ID"
        (.str "/some/task/location") (httpErr (errOf true 404))).1 =
        .taskNotFoundError "Failed to complete task" "/some/task/location" (respOf 404)) ∧
    ((completeTask "https://umbrella-corp.d-velop.cloud" "AUTH_SESSION_ID"
        (.str "/some/task/location") (httpErr (errOf true 410))).1 =
        .taskAlreadyCompletedError (TaskAlreadyCompletedError.make
          "Failed to complete task" "/some/task/location" (respOf 410)) ∧
      (TaskAlreadyCompletedError.make "Failed to complete task"
        "/some/task/location" (respOf 410)).location = "/some/task/location") :=
  ⟨⟨resolvedLocation_str "/some/task/location" (by decide), by decide,
    (completeTask_error_status_mapping "https://umbrella-corp.d-velop.cloud"
     "AUTH_SESSION_ID" (.str "/some/task/location") (httpErr (errOf true 401))
     "/some/task/location" (errOf true 401) (respOf 401)
     (resolvedLocation_str "/some/task/location" (by decide)) (by decide) rfl rfl).1 rfl⟩,
   (completeTask_error_status_mapping "https://umbrella-corp.d-velop.cloud"
     "AUTH_SESSION_ID" (.str "/some/task/location") (httpErr (errOf true 403))
     "/some/task/location" (errOf true 403) (respOf 403)
     (resolvedLocation_str "/some/task/location" (by decide)) (by decide) rfl rfl).2.1 rfl,
   (completeTask_error_status_mapping "https://umbrella-corp.d-velop.cloud"
     "AUTH_SESSION_ID" (.str "/some/task/location") (httpErr (errOf true 404))
     "/some/task/location" (errOf true 404) (respOf 404)
     (resolvedLocation_str "/some/task/location" (by decide)) (by decide) rfl rfl).2.2.1 rfl,
   (completeTask_error_status_mapping "https://umbrella-corp.d-velop.cloud"
     "AUTH_SESSION_ID" (.str "/some/task/location") (httpErr (errOf true 410))
     "/some/task/location" (errOf true 410) (respOf 410)
     (resolvedLocation_str "/some/task/location" (by decide)) (by decide) rfl rfl).2.2.2 rfl⟩

/-- Claim C2: for every task argument that is neither a non-empty string nor
an object with a non-empty `location` field (the two branch guards of the
source both fail, which covers `null`, `undefined`, the empty string, and an
object whose `location` is empty or absent), `completeTask` throws
`NoTaskLocationError` and issues no HTTP request at all. -/
theorem completeTask_missing_location (sb sid : String) (task : JsValue)
    (http : HttpRequest → HttpOutcome)
    (h : resolvedLocation task = none) :
    completeTask sb sid task http =
      (.noTaskLocationError "Failed to complete task" task, []) := by
  rw [completeTask_eq, h]

/-- Witness for C2 at each input the claim enumerates: `null`, `undefined`,
the empty string, an object without a `location` field, and an object whose
`location` is the empty string. -/
theorem completeTask_missing_location_witness :
    (resolvedLocation .null = none ∧
      completeTask "https://umbrella-corp.d-velop.cloud" "AUTH_SESSION_ID"
        .null (httpErr (errOf true 401)) =
        (.noTaskLocationError "Failed to complete task" .null, [])) ∧
    completeTask "https://umbrella-corp.d-velop.cloud" "AUTH_SESSION_ID"
      .undefined (httpErr (errOf true 401)) =
      (.noTaskLocationError "Failed to complete task" .undefined, []) ∧
    completeTask "https://umbrella-corp.d-velop.cloud" "AUTH_SESSION_ID"
      (.str "") (httpErr (errOf true 401)) =
      (.noTaskLocationError "Failed to complete task" (.str ""), []) ∧
    completeTask "https://umbrella-corp.d-velop.cloud" "AUTH_SESSION_ID"
      (.obj [("subject", .str "some task")]) (httpErr (errOf true 401)) =
      (.noTaskLocationError "Failed to complete task"
        (.obj [("subject", .str "some task")]), []) ∧
    completeTask "https://umbrella-corp.d-velop.cloud" "AUTH_SESSION_ID"
      (.obj [("location", .str "")]) (httpErr (errOf true 401)) =
      (.noTaskLocationError "Failed to complete task"
        (.obj [("location", .str "")]), []) :=
  ⟨⟨by decide, completeTask_missing_location _ _ _ _ (by decide)⟩,
   completeTask_missing_location _ _ _ _ (by decide),
   completeTask_missing_location _ _ _ _ (by decide),
   completeTask_missing_location _ _ _ _ (by decide),
   completeTask_missing_location _ _ _ _ (by decide)⟩

/-- Claim C7: for every task argument resolving to a non-empty location `l`,
`completeTask` issues exactly one HTTP request, namely a POST to
`l ++ "/completionState"` with `baseURL` the system base URI, body
`{complete: true}`, and an Authorization header `"Bearer " ++ authSessionId`;
on a successful response the call resolves with no value. -/
theorem completeTask_success_request (sb sid : String) (task : JsValue)
    (http : HttpRequest → HttpOutcome) (l : String) (r : AxiosResponse)
    (hloc : resolvedLocation task = some l) (_hne : l ≠ "")
    (hhttp : http (completeTaskRequest sb sid l) = .ok r) :
    completeTask sb sid task http = (.success, [completeTaskRequest sb sid l]) ∧
    completeTaskRequest sb sid l =
      { method := "POST", url := l ++ "/completionState", baseURL := sb,
        headers := [("Authorization", "Bearer " ++ sid), ("Origin", sb)],
        body := some (.obj [("complete", .bool true)]),
        follows := none, templates := none, params := none } := by
  have hct := completeTask_eq sb sid task http
  rw [hloc] at hct
  exact ⟨by simp [hct, completeTaskAt, hhttp], rfl⟩

/-- Witness for C7 at the spec example location. -/
theorem completeTask_success_request_witness :
    resolvedLocation (.str "/some/task/location") = some "/some/task/location" ∧
    "/some/task/location" ≠ "" ∧
    completeTask "https://umbrella-corp.d-velop.cloud" "AUTH_SESSION_ID"
      (.str "/some/task/location") (httpOk (respOf 200)) =
      (.success, [completeTaskRequest "https://umbrella-corp.d-velop.cloud"
        "AUTH_SESSION_ID" "/some/task/location"]) ∧
    completeTaskRequest "https://umbrella-corp.d-velop.cloud" "AUTH_SESSION_ID"
      "/some/task/location" =
      { method := "POST", url := "/some/task/location" ++ "/completionState",
        baseURL := "https://umbrella-corp.d-velop.cloud",
        headers := [("Authorization", "Bearer " ++ "AUTH_SESSION_ID"),
                    ("Origin", "https://umbrella-corp.d-velop.cloud")],
        body := some (.obj [("complete", .bool true)]),
        follows := none, templates := none, params := none } :=
  ⟨resolvedLocation_str "/some/task/location" (by decide), by decide,
   (completeTask_success_request "https://umbrella-corp.d-velop.cloud"
     "AUTH_SESSION_ID" (.str "/some/task/location") (httpOk (respOf 200))
     "/some/task/location" (respOf 200)
     (resolvedLocation_str "/some/task/location" (by decide)) (by decide) rfl).1,
   (completeTask_success_request "https://umbrella-corp.d-velop.cloud"
     "AUTH_SESSION_ID" (.str "/some/task/location") (httpOk (respOf 200))
     "/some/task/location" (respOf 200)
     (resolvedLocation_str "/some/task/location" (by decide)) (by decide) rfl).2⟩

theorem getDmsObject_requests {α : Type} (tc : TenantContext)
    (p : GetDmsObjectParams) (tf : AxiosResponse → Except JsError α)
    (http : HttpRequest → HttpOutcome) :
    (getDmsObject tc p tf http).2 = [getDmsObjectRequest tc p] := by
  cases hh : http (getDmsObjectRequest tc p) with
  | ok r => cases ht : tf r <;> simp [getDmsObject, hh, ht]
  | err e => simp [getDmsObject, hh]

theorem transform_ok_fields (r : AxiosResponse) (d : DmsObject)
    (h : transformGetDmsObjectResponse r = .ok d) :
    d.repositoryId = (r.config.lookup "params").lookup "repositoryid" ∧
    d.sourceId = (r.config.lookup "params").lookup "sourceid" ∧
    d.id = r.data.lookup "id" ∧
    d.categories = r.data.lookup "sourceCategories" ∧
    d.properties = r.data.lookup "sourceProperties" := by
  unfold transformGetDmsObjectResponse at h
  cases h0 : r.config.getProp "params" <;> rw [h0] at h <;> dsimp only at h
  case error => exact absurd h (by simp)
  case ok ps =>
  cases h1 : ps.getProp "repositoryid" <;> rw [h1] at h <;> dsimp only at h
  case error => exact absurd h (by simp)
  case ok rid =>
  cases h2 : ps.getProp "sourceid" <;> rw [h2] at h <;> dsimp only at h
  case error => exact absurd h (by simp)
  case ok sid =>
  cases h3 : r.data.getProp "id" <;> rw [h3] at h <;> dsimp only at h
  case error => exact absurd h (by simp)
  case ok oid =>
  cases h4 : r.data.getProp "sourceCategories" <;> rw [h4] at h <;> dsimp only at h
  case error => exact absurd h (by simp)
  case ok cats =>
  cases h5 : r.data.getProp "sourceProperties" <;> rw [h5] at h <;> dsimp only at h
  case error => exact absurd h (by simp)
  case ok props =>
  injection h with h
  subst h
  have e0 := getProp_ok _ _ _ h0
  subst e0
  exact ⟨getProp_ok _ _ _ h1, getProp_ok _ _ _ h2, getProp_ok _ _ _ h3,
    getProp_ok _ _ _ h4, getProp_ok _ _ _ h5⟩

/-- Claim C3: for every successful response, `getDmsObject` with the default
transform returns a `DmsObject` whose `id` equals `response.data.id`, whose
`categories` equal `response.data.sourceCategories`, and whose `properties`
equal `response.data.sourceProperties`. -/
theorem getDmsObject_default_transform_fields (tc : TenantContext)
    (p : GetDmsObjectParams) (http : HttpRequest → HttpOutcome)
    (r : AxiosResponse) (d : DmsObject)
    (h1 : http (getDmsObjectRequest tc p) = .ok r)
    (h2 : transformGetDmsObjectResponse r = .ok d) :
    (getDmsObject tc p transformGetDmsObjectResponse http).1 = .ok d ∧
    d.id = r.data.lookup "id" ∧
    d.categories = r.data.lookup "sourceCategories" ∧
    d.properties = r.data.lookup "sourceProperties" := by
  have hf := transform_ok_fields r d h2
  exact ⟨by simp [getDmsObject, h1, h2], hf.2.2.1, hf.2.2.2.1, hf.2.2.2.2⟩

/-- Witness for C3 at a well-formed concrete response. -/
theorem getDmsObject_default_transform_fields_witness :
    httpOk responseW (getDmsObjectRequest tenantContextW getDmsObjectParamsW) =
      .ok responseW ∧
    transformGetDmsObjectResponse responseW = .ok dmsObjectW ∧
    (getDmsObject tenantContextW getDmsObjectParamsW
      transformGetDmsObjectResponse (httpOk responseW)).1 = .ok dmsObjectW ∧
    dmsObjectW.id = responseW.data.lookup "id" ∧
    dmsObjectW.categories = responseW.data.lookup "sourceCategories" ∧
    dmsObjectW.properties = responseW.data.lookup "sourceProperties" :=
  ⟨rfl, rfl,
   (getDmsObject_default_transform_fields tenantContextW getDmsObjectParamsW
     (httpOk responseW) responseW dmsObjectW rfl rfl).1,
   (getDmsObject_default_transform_fields tenantContextW getDmsObjectParamsW
     (httpOk responseW) responseW dmsObjectW rfl rfl).2.1,
   (getDmsObject_default_transform_fields tenantContextW getDmsObjectParamsW
     (httpOk responseW) responseW dmsObjectW rfl rfl).2.2.1,
   (getDmsObject_default_transform_fields tenantContextW getDmsObjectParamsW
     (httpOk responseW) responseW dmsObjectW rfl rfl).2.2.2⟩

/-- Claim C4: for every caller-supplied transform `t` and every successful
response `r`, `getDmsObject` called with `t` returns exactly `t r`, applied
to the raw response; with no transform supplied, the call is the call with
the default transform `transformGetDmsObjectResponse`, which is then applied
to `r`. -/
theorem getDmsObject_transform_override (tc : TenantContext)
    (p : GetDmsObjectParams) {α : Type} (t : AxiosResponse → α)
    (http : HttpRequest → HttpOutcome) (r : AxiosResponse)
    (h1 : http (getDmsObjectRequest tc p) = .ok r) :
    (getDmsObject tc p (liftTransform t) http).1 = .ok (t r) ∧
    getDmsObjectDefault tc p http =
      getDmsObject tc p transformGetDmsObjectResponse http ∧
    (∀ d : DmsObject, transformGetDmsObjectResponse r = .ok d →
      (getDmsObjectDefault tc p http).1 = .ok d) := by
  refine ⟨by simp [getDmsObject, liftTransform, h1], rfl, fun d hd => ?_⟩
  simp [getDmsObjectDefault, getDmsObject, h1, hd]

/-- Witness for C4: a status-projecting custom transform receives the raw
response, while the default call maps it to the domain object. -/
theorem getDmsObject_transform_override_witness :
    httpOk responseW (getDmsObjectRequest tenantContextW getDmsObjectParamsW) =
      .ok responseW ∧
    (getDmsObject tenantContextW getDmsObjectParamsW
      (liftTransform statusTransformW) (httpOk responseW)).1 =
      .ok (statusTransformW responseW) ∧
    getDmsObjectDefault tenantContextW getDmsObjectParamsW (httpOk responseW) =
      getDmsObject tenantContextW getDmsObjectParamsW
        transformGetDmsObjectResponse (httpOk responseW) ∧
    (getDmsObjectDefault tenantContextW getDmsObjectParamsW
      (httpOk responseW)).1 = .ok dmsObjectW :=
  ⟨rfl,
   (getDmsObject_transform_override tenantContextW getDmsObjectParamsW
     statusTransformW (httpOk responseW) responseW rfl).1,
   (getDmsObject_transform_override tenantContextW getDmsObjectParamsW
     statusTransformW (httpOk responseW) responseW rfl).2.1,
   (getDmsObject_transform_override tenantContextW getDmsObjectParamsW
     statusTransformW (httpOk responseW) responseW rfl).2.2 dmsObjectW rfl⟩

/-- Claim C5: for every call of `getDmsObject` whose HTTP request fails with
a response carrying status 400, the call throws `BadRequestError`; status
401 throws `UnauthorizedError` (the typed kind, not the generic
message-prefixed rethrow); status 404 throws `NotFoundError` (not a silent
empty result). -/
theorem getDmsObject_error_status_mapping (tc : TenantContext)
    (p : GetDmsObjectParams) {α : Type} (tf : AxiosResponse → Except JsError α)
    (http : HttpRequest → HttpOutcome) (e : JsError) (r : AxiosResponse)
    (h1 : http (getDmsObjectRequest tc p) = .err e)
    (h2 : e.isAxiosError = true)
    (h3 : e.response = some r) :
    (r.status = 400 → (getDmsObject tc p tf http).1 =
      .error (.badRequestError "Failed to get dmsObject" e)) ∧
    (r.status = 401 → (getDmsObject tc p tf http).1 =
      .error (.unauthorizedError "Failed to get dmsObject" e)) ∧
    (r.status = 404 → (getDmsObject tc p tf http).1 =
      .error (.notFoundError "Failed to get dmsObject" e)) := by
  refine ⟨?_, ?_, ?_⟩ <;> intro hst <;>
    simp [getDmsObject, h1, handleGetDmsObjectError, h2, h3, hst]

/-- Witness for C5, one instantiation per status code. -/
theorem getDmsObject_error_status_mapping_witness :
    ((errOf true 400).isAxiosError = true ∧
      (errOf true 400).response = some (respOf 400) ∧
      (getDmsObject tenantContextW getDmsObjectParamsW
        transformGetDmsObjectResponse (httpErr (errOf true 400))).1 =
        .error (.badRequestError "Failed to get dmsObject" (errOf true 400))) ∧
    (getDmsObject tenantContextW getDmsObjectParamsW
      transformGetDmsObjectResponse (httpErr (errOf true 401))).1 =
      .error (.unauthorizedError "Failed to get dmsObject" (errOf true 401)) ∧
    (getDmsObject tenantContextW getDmsObjectParamsW
      transformGetDmsObjectResponse (httpErr (errOf true 404))).1 =
      .error (.notFoundError "Failed to get dmsObject" (errOf true 404)) :=
  ⟨⟨rfl, rfl,
    (getDmsObject_error_status_mapping tenantContextW getDmsObjectParamsW
      transformGetDmsObjectResponse (httpErr (errOf true 400))
      (errOf true 400) (respOf 400) rfl rfl rfl).1 rfl⟩,
   (getDmsObject_error_status_mapping tenantContextW getDmsObjectParamsW
     transformGetDmsObjectResponse (httpErr (errOf true 401))
     (errOf true 401) (respOf 401) rfl rfl rfl).2.1 rfl,
   (getDmsObject_error_status_mapping tenantContextW getDmsObjectParamsW
     transformGetDmsObjectResponse (httpErr (errOf true 404))
     (errOf true 404) (respOf 404) rfl rfl rfl).2.2 rfl⟩

/-- Counterexample to claim C6 as stated: at a concrete 403 failure,
`getDmsObject` does not throw a typed unauthorized error — its switch has no
403 case — but rethrows the original error with the context-prefixed
message. -/
theorem getDmsObject_403_counterexample :
    (getDmsObject tenantContextW getDmsObjectParamsW
      transformGetDmsObjectResponse (httpErr (errOf true 403))).1 =
      .error (.rethrown (contextMessage "Failed to get dmsObject" (errOf true 403))) ∧
    (getDmsObject tenantContextW getDmsObjectParamsW
      transformGetDmsObjectResponse (httpErr (errOf true 403))).1 ≠
      .error (.unauthorizedError "Failed to get dmsObject" (errOf true 403)) := by
  constructor
  · rfl
  · simp [getDmsObject, httpErr, handleGetDmsObjectError, errOf, respOf]

/-- Claim C6 as amended: for every call of `getDmsObject` whose HTTP request
fails with a response carrying status 403, the call does not map the status
to a typed error but rethrows the original error with the context-prefixed
message (only 400, 401 and 404 are mapped to typed errors). -/
theorem getDmsObject_403_rethrown (tc : TenantContext)
    (p : GetDmsObjectParams) {α : Type} (tf : AxiosResponse → Except JsError α)
    (http : HttpRequest → HttpOutcome) (e : JsError) (r : AxiosResponse)
    (h1 : http (getDmsObjectRequest tc p) = .err e)
    (h2 : e.isAxiosError = true)
    (h3 : e.response = some r)
    (h4 : r.status = 403) :
    (getDmsObject tc p tf http).1 =
      .error (.rethrown (contextMessage "Failed to get dmsObject" e)) := by
  simp [getDmsObject, h1, handleGetDmsObjectError, h2, h3, h4]

/-- Witness for the amended C6. -/
theorem getDmsObject_403_rethrown_witness :
    (errOf true 403).isAxiosError = true ∧
    (errOf true 403).response = some (respOf 403) ∧
    (respOf 403).status = 403 ∧
    (getDmsObject tenantContextW getDmsObjectParamsW
      transformGetDmsObjectResponse (httpErr (errOf true 403))).1 =
      .error (.rethrown (contextMessage "Failed to get dmsObject" (errOf true 403))) :=
  ⟨rfl, rfl, rfl,
   getDmsObject_403_rethrown tenantContextW getDmsObjectParamsW
     transformGetDmsObjectResponse (httpErr (errOf true 403))
     (errOf true 403) (respOf 403) rfl rfl rfl rfl⟩

/-- Claim C8: every failure of `getDmsObject` or `completeTask` matching
none of the documented status codes (no axios error or no matching status
for `getDmsObject`; no response or no matching status for `completeTask`,
including failures with no response at all) is rethrown as the original
error value with only its message changed to the operation context string,
a colon and a space, and the original message. -/
theorem unclassified_error_rethrown (tc : TenantContext)
    (p : GetDmsObjectParams) {α : Type} (tf : AxiosResponse → Except JsError α)
    (http1 : HttpRequest → HttpOutcome) (e1 : JsError)
    (sb sid : String) (task : JsValue) (l : String)
    (http2 : HttpRequest → HttpOutcome) (e2 : JsError)
    (h1 : http1 (getDmsObjectRequest tc p) = .err e1)
    (h2 : handledByGetDmsObject e1 = false)
    (h3 : resolvedLocation task = some l)
    (h4 : http2 (completeTaskRequest sb sid l) = .err e2)
    (h5 : handledByCompleteTask e2 = false) :
    (getDmsObject tc p tf http1).1 =
      .error (.rethrown (contextMessage "Failed to get dmsObject" e1)) ∧
    (completeTask sb sid task http2).1 =
      .rethrown (contextMessage "Failed to complete task" e2) := by
  constructor
  · simp only [getDmsObject, h1]
    unfold handleGetDmsObjectError
    unfold handledByGetDmsObject at h2
    cases hax : e1.isAxiosError with
    | false => simp [hax]
    | true =>
      rw [hax] at h2
      simp only [Bool.true_and] at h2
      cases hresp : e1.response with
      | none => simp [hresp]
      | some r =>
        rw [hresp] at h2
        simp only [Bool.or_eq_false_iff, beq_eq_false_iff_ne, ne_eq] at h2
        simp [hresp, h2.1.1, h2.1.2, h2.2]
  · have hct := completeTask_eq sb sid task http2
    rw [h3] at hct
    rw [hct]
    simp only [completeTaskAt, h4]
    unfold handleCompleteTaskError
    unfold handledByCompleteTask at h5
    cases hresp : e2.response with
    | none => simp [hresp]
    | some r =>
      rw [hresp] at h5
      simp only [Bool.or_eq_false_iff, beq_eq_false_iff_ne, ne_eq] at h5
      simp [hresp, h5.1.1.1, h5.1.1.2, h5.1.2, h5.2]

/-- Witness for C8: a non-axios error whose response even carries status 400
for `getDmsObject`, and an error with a response of status 500 for
`completeTask`. -/
theorem unclassified_error_rethrown_witness :
    handledByGetDmsObject (errOf false 400) = false ∧
    handledByCompleteTask (errOf true 500) = false ∧
    (getDmsObject tenantContextW getDmsObjectParamsW
      transformGetDmsObjectResponse (httpErr (errOf false 400))).1 =
      .error (.rethrown (contextMessage "Failed to get dmsObject" (errOf false 400))) ∧
    (completeTask "https://umbrella-corp.d-velop.cloud" "AUTH_SESSION_ID"
      (.str "/some/task/location") (httpErr (errOf true 500))).1 =
      .rethrown (contextMessage "Failed to complete task" (errOf true 500)) :=
  ⟨rfl, by decide,
   (unclassified_error_rethrown tenantContextW getDmsObjectParamsW
     transformGetDmsObjectResponse (httpErr (errOf false 400)) (errOf false 400)
     "https://umbrella-corp.d-velop.cloud" "AUTH_SESSION_ID"
     (.str "/some/task/location") "/some/task/location"
     (httpErr (errOf true 500)) (errOf true 500)
     rfl rfl (resolvedLocation_str "/some/task/location" (by decide))
     rfl (by decide)).1,
   (unclassified_error_rethrown tenantContextW getDmsObjectParamsW
     transformGetDmsObjectResponse (httpErr (errOf false 400)) (errOf false 400)
     "https://umbrella-corp.d-velop.cloud" "AUTH_SESSION_ID"
     (.str "/some/task/location") "/some/task/location"
     (httpErr (errOf true 500)) (errOf true 500)
     rfl rfl (resolvedLocation_str "/some/task/location" (by decide))
     rfl (by decide)).2⟩

/-- Claim C9: `getDmsObject` maps statuses to typed errors only for errors
recognised by `axios.isAxiosError` — a non-axios error is rethrown with the
context-prefixed message even when it carries a response with status 400,
401 or 404 — while `completeTask` dispatches on any error that has a
response field, with no axios-error check. -/
theorem axios_error_gating (tc : TenantContext) (p : GetDmsObjectParams)
    {α : Type} (tf : AxiosResponse → Except JsError α)
    (http1 : HttpRequest → HttpOutcome) (e1 : JsError) (r1 : AxiosResponse)
    (sb sid : String) (task : JsValue) (l : String)
    (http2 : HttpRequest → HttpOutcome) (e2 : JsError) (r2 : AxiosResponse)
    (h1 : http1 (getDmsObjectRequest tc p) = .err e1)
    (h2 : e1.isAxiosError = false)
    (_h3 : e1.response = some r1)
    (_h4 : r1.status = 400 ∨ r1.status = 401 ∨ r1.status = 404)
    (h5 : resolvedLocation task = some l)
    (h6 : http2 (completeTaskRequest sb sid l) = .err e2)
    (_h7 : e2.isAxiosError = false)
    (h8 : e2.response = some r2) :
    (getDmsObject tc p tf http1).1 =
      .error (.rethrown (contextMessage "Failed to get dmsObject" e1)) ∧
    (r2.status = 401 → (completeTask sb sid task http2).1 =
      .unauthenticatedError "Failed to complete task" r2) ∧
    (r2.status = 410 → (completeTask sb sid task http2).1 =
      .taskAlreadyCompletedError
        (TaskAlreadyCompletedError.make "Failed to complete task" l r2)) := by
  have hct := completeTask_eq sb sid task http2
  rw [h5] at hct
  refine ⟨by simp [getDmsObject, h1, handleGetDmsObjectError, h2], ?_, ?_⟩ <;>
    intro hst <;>
    simp [hct, completeTaskAt, h6, handleCompleteTaskError, h8, hst]

/-- Witness for C9: a non-axios error with a 404-status response hits the
generic rethrow of `getDmsObject`, while non-axios errors with 401- and
410-status responses are dispatched to typed errors by `completeTask`. -/
theorem axios_error_gating_witness :
    (errOf false 404).isAxiosError = false ∧
    (errOf false 404).response = some (respOf 404) ∧
    ((getDmsObject tenantContextW getDmsObjectParamsW
      transformGetDmsObjectResponse (httpErr (errOf false 404))).1 =
      .error (.rethrown (contextMessage "Failed to get dmsObject" (errOf false 404)))) ∧
    ((completeTask "https://umbrella-corp.d-velop.cloud" "AUTH_SESSION_ID"
      (.str "/some/task/location") (httpErr (errOf false 401))).1 =
      .unauthenticatedError "Failed to complete task" (respOf 401)) ∧
    ((completeTask "https://umbrella-corp.d-velop.cloud" "AUTH_SESSION_ID"
      (.str "/some/task/location") (httpErr (errOf false 410))).1 =
      .taskAlreadyCompletedError (TaskAlreadyCompletedError.make
        "Failed to complete task" "/some/task/location" (respOf 410))) :=
  ⟨rfl, rfl,
   (axios_error_gating tenantContextW getDmsObjectParamsW
     transformGetDmsObjectResponse (httpErr (errOf false 404))
     (errOf false 404) (respOf 404)
     "https://umbrella-corp.d-velop.cloud" "AUTH_SESSION_ID"
     (.str "/some/task/location") "/some/task/location"
     (httpErr (errOf false 401)) (errOf false 401) (respOf 401)
     rfl rfl rfl (Or.inr (Or.inr rfl))
     (resolvedLocation_str "/some/task/location" (by decide))
     rfl rfl rfl).1,
   (axios_error_gating tenantContextW getDmsObjectParamsW
     transformGetDmsObjectResponse (httpErr (errOf false 404))
     (errOf false 404) (respOf 404)
     "https://umbrella-corp.d-velop.cloud" "AUTH_SESSION_ID"
     (.str "/some/task/location") "/some/task/location"
     (httpErr (errOf false 401)) (errOf false 401) (respOf 401)
     rfl rfl rfl (Or.inr (Or.inr rfl))
     (resolvedLocation_str "/some/task/location" (by decide))
     rfl rfl rfl).2.1 rfl,
   (axios_error_gating tenantContextW getDmsObjectParamsW
     transformGetDmsObjectResponse (httpErr (errOf false 404))
     (errOf false 404) (respOf 404)
     "https://umbrella-corp.d-velop.cloud" "AUTH_SESSION_ID"
     (.str "/some/task/location") "/some/task/location"
     (httpErr (errOf false 410)) (errOf false 410) (respOf 410)
     rfl rfl rfl (Or.inr (Or.inr rfl))
     (resolvedLocation_str "/some/task/location" (by decide))
     rfl rfl rfl).2.2 rfl⟩

/-- Claim C10: the default transform reads `repositoryId` and `sourceId`
from the echoed request configuration (`response.config.params.repositoryid`
and `.sourceid`), not from the response body and not from the caller's
params record — even though the issued request passes those ids via the
`templates` option and sets no `params` — and when the config `params`
object carries no such entries the fields are `undefined`, produced from no
other source. -/
theorem transform_reads_config_params (r : AxiosResponse) (d : DmsObject)
    (tc : TenantContext) (p : GetDmsObjectParams) {α : Type}
    (tf : AxiosResponse → Except JsError α) (http : HttpRequest → HttpOutcome)
    (h : transformGetDmsObjectResponse r = .ok d) :
    d.repositoryId = (r.config.lookup "params").lookup "repositoryid" ∧
    d.sourceId = (r.config.lookup "params").lookup "sourceid" ∧
    ((r.config.lookup "params").lookup "repositoryid" = .undefined →
      d.repositoryId = .undefined) ∧
    ((r.config.lookup "params").lookup "sourceid" = .undefined →
      d.sourceId = .undefined) ∧
    (getDmsObject tc p tf http).2 = [getDmsObjectRequest tc p] ∧
    (getDmsObjectRequest tc p).templates =
      some [("repositoryid", p.repositoryId), ("dmsobjectid", p.dmsObjectId),
            ("sourceid", p.sourceId)] ∧
    (getDmsObjectRequest tc p).params = none := by
  have hf := transform_ok_fields r d h
  exact ⟨hf.1, hf.2.1, fun h0 => by rw [hf.1, h0], fun h0 => by rw [hf.2.1, h0],
    getDmsObject_requests tc p tf http, rfl, rfl⟩

/-- Witness for C10 at a response whose config `params` object has no
`repositoryid` or `sourceid` entry: both fields come out `undefined`. -/
theorem transform_reads_config_params_witness :
    transformGetDmsObjectResponse responseNoParamsW = .ok dmsObjectNoParamsW ∧
    (responseNoParamsW.config.lookup "params").lookup "repositoryid" = .undefined ∧
    dmsObjectNoParamsW.repositoryId = .undefined ∧
    dmsObjectNoParamsW.sourceId = .undefined ∧
    (getDmsObject tenantContextW getDmsObjectParamsW
      transformGetDmsObjectResponse (httpOk responseNoParamsW)).2 =
      [getDmsObjectRequest tenantContextW getDmsObjectParamsW] ∧
    (getDmsObjectRequest tenantContextW getDmsObjectParamsW).templates =
      some [("repositoryid", "repo1"), ("dmsobjectid", "object1"),
            ("sourceid", "source1")] ∧
    (getDmsObjectRequest tenantContextW getDmsObjectParamsW).params = none :=
  ⟨rfl, rfl,
   (transform_reads_config_params responseNoParamsW dmsObjectNoParamsW
     tenantContextW getDmsObjectParamsW transformGetDmsObjectResponse
     (httpOk responseNoParamsW) rfl).2.2.1 rfl,
   (transform_reads_config_params responseNoParamsW dmsObjectNoParamsW
     tenantContextW getDmsObjectParamsW transformGetDmsObjectResponse
     (httpOk responseNoParamsW) rfl).2.2.2.1 rfl,
   (transform_reads_config_params responseNoParamsW dmsObjectNoParamsW
     tenantContextW getDmsObjectParamsW transformGetDmsObjectResponse
     (httpOk responseNoParamsW) rfl).2.2.2.2.1,
   (transform_reads_config_params responseNoParamsW dmsObjectNoParamsW
     tenantContextW getDmsObjectParamsW transformGetDmsObjectResponse
     (httpOk responseNoParamsW) rfl).2.2.2.2.2.1,
   (transform_reads_config_params responseNoParamsW dmsObjectNoParamsW
     tenantContextW getDmsObjectParamsW transformGetDmsObjectResponse
     (httpOk responseNoParamsW) rfl).2.2.2.2.2.2⟩
